import Mathlib

/-!
Verification of the eta-analysis repository.

This file embeds, as Lean definitions, the parts of the code the claims
are about:

* src/src/helpers.py, function _wkb_point_to_lonlat: decoding of a WKB
  point from Base64 / hex / raw bytes, with the optional 4-byte zero
  marker, the byte-order flag, the geometry-type word, and the
  Europe-biased axis disambiguation.
* src/src/eta_chart.py, function eta_timeline_chart and its inner
  _derive_version: the version tag, the eta_relative_hr derivation, and
  the dropna + sort step.
* src/src/events.py, functions load_eta_events_for_transport and
  load_telematics_events_for_transport: row filtering by stringified
  transport id, column renaming and timestamp coercion.

IEEE-754 binary64 payload values are embedded exactly: a decoded double
is NaN, a signed infinity, or a finite value m * 2 ^ e with integer
mantissa and exponent, and comparisons follow IEEE semantics (every
comparison with NaN is false).  Timestamps are embedded as rational
numbers of seconds since the Unix epoch.
-/

namespace EtaAnalysis

/-- An IEEE-754 binary64 value as produced by struct.unpack in
_wkb_point_to_lonlat: NaN, a signed infinity (true = negative), or a
finite value m * 2 ^ e. -/
inductive F where
  | nan : F
  | inf : Bool → F
  | fin : Int → Int → F
deriving DecidableEq

/-- Less-or-equal on decoded doubles with IEEE semantics: any comparison
involving NaN is false; finite values m1 * 2 ^ e1 and m2 * 2 ^ e2 are
compared after shifting to a common exponent. -/
def fle : F → F → Bool
  | .nan, _ => false
  | _, .nan => false
  | .inf true, .inf true => true
  | .inf true, .inf false => true
  | .inf true, .fin _ _ => true
  | .inf false, .inf false => true
  | .inf false, .inf true => false
  | .inf false, .fin _ _ => false
  | .fin _ _, .inf false => true
  | .fin _ _, .inf true => false
  | .fin m1 e1, .fin m2 e2 =>
    if e1 ≤ e2 then m1 ≤ m2 * 2 ^ (e2 - e1).toNat
    else m1 * 2 ^ (e1 - e2).toNat ≤ m2

/-- The double holding the integer k (helpers.py compares against the
literals -180.0, 180.0, -90.0, 90.0, -31.0, 60.0, 30.0, 75.0). -/
def qc (k : Int) : F := .fin k 0

/-- helpers.py lines 14-15: in_global(lon, lat). -/
def inGlobalF (lon lat : F) : Bool :=
  fle (qc (-180)) lon && fle lon (qc 180) && fle (qc (-90)) lat && fle lat (qc 90)

/-- helpers.py lines 19-20: in_europe(lon, lat), the continental
bounding box. -/
def inEuropeF (lon lat : F) : Bool :=
  fle (qc (-31)) lon && fle lon (qc 60) && fle (qc 30) lat && fle lat (qc 75)

/-- Little-endian interpretation of a byte list as a natural number
(first byte least significant), as struct.unpack with an ascii less-than
sign does. -/
def leNat : List Nat → Nat
  | [] => 0
  | b :: bs => b + 256 * leNat bs

/-- Big-endian interpretation of a byte list (first byte most
significant). -/
def beNat (bs : List Nat) : Nat := leNat bs.reverse

/-- Decode a 64-bit word into an IEEE-754 binary64 value (sign bit 63,
11 exponent bits, 52 fraction bits), exactly as struct.unpack does for
format character d. -/
def decodeF64 (n : Nat) : F :=
  let w : Nat := n % 2 ^ 64
  let s : Nat := w / 2 ^ 63
  let e : Nat := w / 2 ^ 52 % 2 ^ 11
  let f : Nat := w % 2 ^ 52
  if e = 2047 then
    if f = 0 then .inf (s == 1) else .nan
  else
    let m : Int := if e = 0 then (f : Int) else ((2 ^ 52 + f : Nat) : Int)
    let m2 : Int := if s = 1 then -m else m
    let ex : Int := if e = 0 then -1074 else (e : Int) - 1075
    .fin m2 ex

/-- Read a machine word from bytes in the endianness selected by the
byte-order flag (true = little-endian). -/
def byteWord (le : Bool) (bs : List Nat) : Nat := if le then leNat bs else beNat bs

/-- helpers.py lines 65-88: pick the (lon, lat) orientation, with the
Europe bias.  x and y are the two doubles in payload order. -/
def pickLonLat (x y : F) : Option (F × F) :=
  let origValid := inGlobalF x y
  let swapValid := inGlobalF y x
  if origValid && inEuropeF x y then some (x, y)
  else if swapValid && inEuropeF y x then some (y, x)
  else if origValid && !inEuropeF x y && swapValid then some (y, x)
  else if origValid then some (x, y)
  else if swapValid then some (y, x)
  else none

/-- The axis-disambiguation preference order exactly as the
specification words it: the original pairing when globally valid and in
the continental box; else the swapped pairing when globally valid and in
the box; else the swapped pairing when the original is globally valid
but outside the box and the swap is globally valid; else whichever
pairing is globally valid, original preferred; else undecodable. -/
def axisPreferenceSpec (x y : F) : Option (F × F) :=
  if inGlobalF x y && inEuropeF x y then some (x, y)
  else if inGlobalF y x && inEuropeF y x then some (y, x)
  else if inGlobalF x y && !inEuropeF x y && inGlobalF y x then some (y, x)
  else if inGlobalF x y then some (x, y)
  else if inGlobalF y x then some (y, x)
  else none

/-- helpers.py lines 45-47: drop the optional 4-byte all-zero marker
when the byte after it is a valid byte-order flag and the total length
is at least 9. -/
def dropMarker (b : List Nat) : List Nat :=
  if 9 ≤ b.length ∧ b.take 4 = [0, 0, 0, 0] ∧ (b[4]? = some 0 ∨ b[4]? = some 1) then
    b.drop 4
  else b

/-- The geometry-type word: 4 bytes at offset 1, in the endianness given
by the flag byte (helpers.py line 56). -/
def gtypeOf (b : List Nat) : Nat := byteWord (b.headD 0 == 1) ((b.drop 1).take 4)

/-- The first payload double: 8 bytes at offset 5 (helpers.py line 61). -/
def rawX (b : List Nat) : F := decodeF64 (byteWord (b.headD 0 == 1) ((b.drop 5).take 8))

/-- The second payload double: 8 bytes at offset 13 (helpers.py line 61). -/
def rawY (b : List Nat) : F := decodeF64 (byteWord (b.headD 0 == 1) ((b.drop 13).take 8))

/-- helpers.py lines 49-88: decode an (already marker-stripped) byte
sequence.  The slice b[5:21] always holds 16 bytes once the length check
passed, so the try/except around the payload unpack never fires. -/
def readPoint (b : List Nat) : Option (F × F) :=
  if b.length < 21 then none
  else if b.headD 0 ≠ 0 ∧ b.headD 0 ≠ 1 then none
  else if gtypeOf b ≠ 1 then none
  else pickLonLat (rawX b) (rawY b)

/-- Value of a standard Base64 alphabet character. -/
def b64Val (c : Char) : Option Nat :=
  if 'A' ≤ c ∧ c ≤ 'Z' then some (c.toNat - 65)
  else if 'a' ≤ c ∧ c ≤ 'z' then some (c.toNat - 97 + 26)
  else if '0' ≤ c ∧ c ≤ '9' then some (c.toNat - 48 + 52)
  else if c = '+' then some 62
  else if c = '/' then some 63
  else none

/-- Map every character of a Base64 body to its 6-bit value, failing on
any character outside the alphabet. -/
def b64Vals : List Char → Option (List Nat)
  | [] => some []
  | c :: cs =>
    match b64Val c, b64Vals cs with
    | some v, some vs => some (v :: vs)
    | _, _ => none

/-- Repack 6-bit groups into bytes; a trailing group of three sextets
yields two bytes and a trailing group of two yields one byte, matching
one or two padding characters. -/
def sexBytes : List Nat → List Nat
  | a :: b :: c :: d :: rest =>
    (a * 4 + b / 16) :: (b % 16 * 16 + c / 4) :: (c % 4 * 64 + d) :: sexBytes rest
  | [a, b, c] => [a * 4 + b / 16, b % 16 * 16 + c / 4]
  | [a, b] => [a * 4 + b / 16]
  | [_] => []
  | [] => []

/-- Number of trailing padding characters. -/
def padCount (cs : List Char) : Nat := (cs.reverse.takeWhile (fun c => c == '=')).length

/-- Modelled from the Python standard library: base64.b64decode with
validate set to True, as called in helpers.py line 33.  The length must
be a multiple of four, every character must be in the standard alphabet,
and at most two padding characters may appear, only at the end. -/
def b64Decode (s : String) : Option (List Nat) :=
  let cs := s.data
  if cs.length % 4 ≠ 0 then none
  else
    let p := padCount cs
    if 2 < p then none
    else
      let body := cs.take (cs.length - p)
      if body.contains '=' then none
      else (b64Vals body).map sexBytes

/-- Value of a hexadecimal digit. -/
def hexVal (c : Char) : Option Nat :=
  if '0' ≤ c ∧ c ≤ '9' then some (c.toNat - 48)
  else if 'a' ≤ c ∧ c ≤ 'f' then some (c.toNat - 97 + 10)
  else if 'A' ≤ c ∧ c ≤ 'F' then some (c.toNat - 65 + 10)
  else none

/-- Ascii whitespace in the sense of the C Py_ISSPACE test: tab,
newline, vertical tab, form feed, carriage return, space. -/
def asciiSpace (c : Char) : Bool :=
  (9 ≤ c.toNat && c.toNat ≤ 13) || c.toNat == 32

/-- Pair up hexadecimal digits into bytes exactly as the CPython
scanner does: ascii whitespace is skipped between byte pairs, the two
digits of a pair must be contiguous, and a lone digit or any other
character fails. -/
def hexPairs : List Char → Option (List Nat)
  | [] => some []
  | c :: rest =>
    if asciiSpace c then hexPairs rest
    else
      match hexVal c, rest with
      | some x, d :: rest2 =>
        match hexVal d with
        | some y =>
          match hexPairs rest2 with
          | some bs => some ((x * 16 + y) :: bs)
          | none => none
        | none => none
      | _, _ => none

/-- Modelled from the Python standard library: bytes.fromhex as called
in helpers.py line 39 (CPython 3.11 behavior: ascii whitespace between
byte pairs is ignored, but the two digits of a pair must be
contiguous). -/
def hexDecode (s : String) : Option (List Nat) :=
  hexPairs s.data

/-- Modelled from the Python standard library: the str.isspace test
that str.strip removes by: the ascii whitespace and separator controls
(9-13, 28-31, 32) plus the Unicode whitespace code points next line,
no-break space, ogham space mark, the en-quad..hair-space range, line
and paragraph separators, narrow no-break space, medium mathematical
space, and ideographic space. -/
def pyIsSpace (c : Char) : Bool :=
  (9 ≤ c.toNat && c.toNat ≤ 13) || (28 ≤ c.toNat && c.toNat ≤ 32) ||
  c.toNat == 133 || c.toNat == 160 || c.toNat == 5760 ||
  (8192 ≤ c.toNat && c.toNat ≤ 8202) || c.toNat == 8232 || c.toNat == 8233 ||
  c.toNat == 8239 || c.toNat == 8287 || c.toNat == 12288

/-- Modelled from the Python standard library: str.strip with no
argument, as called in helpers.py line 29; removes leading and trailing
Python whitespace. -/
def pyStrip (s : String) : String :=
  ⟨((s.data.dropWhile pyIsSpace).reverse.dropWhile pyIsSpace).reverse⟩

/-- The argument of _wkb_point_to_lonlat: None, a bytes object, a
string, or a value of any other type. -/
inductive WkbInput where
  | nullIn : WkbInput
  | bytesIn : List Nat → WkbInput
  | strIn : String → WkbInput
  | otherIn : WkbInput
deriving DecidableEq

/-- helpers.py lines 22-43: normalize the input to raw bytes.  None and
unsupported types fail; a string is stripped of surrounding whitespace,
then tried as strict Base64 and, failing that, as hexadecimal. -/
def toByteData : WkbInput → Option (List Nat)
  | .nullIn => none
  | .bytesIn b => some b
  | .strIn s =>
    let t := pyStrip s
    match b64Decode t with
    | some b => some b
    | none => hexDecode t
  | .otherIn => none

/-- helpers.py lines 5-88: the full decoder _wkb_point_to_lonlat. -/
def wkbPointToLonLat (i : WkbInput) : Option (F × F) :=
  match toByteData i with
  | none => none
  | some b => readPoint (dropMarker b)

/-- Does the second string occur as a contiguous substring of the
first, starting at the head? -/
def startsWithL : List Char → List Char → Bool
  | _, [] => true
  | [], _ :: _ => false
  | a :: as, b :: bs => a == b && startsWithL as bs

/-- Does the second string occur as a contiguous substring of the
first, anywhere?  Embeds the Python membership test on strings used in
_derive_version. -/
def containsL : List Char → List Char → Bool
  | [], needle => needle.isEmpty
  | hay@(_ :: t), needle => startsWithL hay needle || containsL t needle

/-- Substring test on strings. -/
def strContains (hay needle : String) : Bool := containsL hay.data needle.data

/-- Lower-case a string character by character, as str.lower does for
ascii data. -/
def lowerStr (s : String) : String := ⟨s.data.map Char.toLower⟩

/-- One ETA event record as _derive_version sees it: the explicit
VERSION cell (none when the column is absent or the cell is null) and
the source cell (none when absent). -/
structure EtaRec where
  VERSION : Option String
  source : Option String
deriving DecidableEq

/-- eta_chart.py lines 142-146: the source heuristic of
_derive_version. -/
def sourceTag (r : EtaRec) : String :=
  let s := lowerStr (r.source.getD "")
  if strContains s "v3" then "v3"
  else if strContains s "v2" then "v2"
  else "unknown"

/-- eta_chart.py lines 134-146: _derive_version.  A present, non-null
VERSION cell is lower-cased and scanned for 3 / v3 then 2 / v2; when it
matches neither, and always when it is absent, the source heuristic
decides. -/
def deriveVersion (r : EtaRec) : String :=
  match r.VERSION with
  | some v =>
    let lv := lowerStr v
    if strContains lv "3" || strContains lv "v3" then "v3"
    else if strContains lv "2" || strContains lv "v2" then "v2"
    else sourceTag r
  | none => sourceTag r

/-- The version-tagging rule exactly as the specification words it:
explicit version field first (lower-cased, 3 / v3 then 2 / v2),
otherwise the lower-cased source field (v3 then v2), otherwise
unknown. -/
def versionTagSpec (r : EtaRec) : String :=
  match r.VERSION with
  | some v =>
    if strContains (lowerStr v) "3" || strContains (lowerStr v) "v3" then "v3"
    else if strContains (lowerStr v) "2" || strContains (lowerStr v) "v2" then "v2"
    else
      if strContains (lowerStr (r.source.getD "")) "v3" then "v3"
      else if strContains (lowerStr (r.source.getD "")) "v2" then "v2"
      else "unknown"
  | none =>
    if strContains (lowerStr (r.source.getD "")) "v3" then "v3"
    else if strContains (lowerStr (r.source.getD "")) "v2" then "v2"
    else "unknown"

/-- eta_chart.py line 132: the relative ETA in hours.  Timestamps are
rational seconds since the epoch; a null (NaT) on either side makes the
derived value null (NaN), exactly as pandas datetime arithmetic does. -/
def etaRelativeHr (eta unload : Option Rat) : Option Rat :=
  match eta, unload with
  | some e, some u => some ((e - u) / 3600)
  | _, _ => none

/-- One row of the events frame entering eta_timeline_chart, after the
to_datetime coercions of lines 127-128: parsed created_at and
calculated_eta (none = NaT). -/
structure ERow where
  created_at : Option Rat
  calculated_eta : Option Rat
deriving DecidableEq

/-- A row carrying the derived eta_relative_hr column. -/
structure DRow where
  created_at : Option Rat
  calculated_eta : Option Rat
  eta_relative_hr : Option Rat
deriving DecidableEq

/-- Attach the derived column of eta_chart.py line 132 to a row. -/
def addDerived (unload : Option Rat) (r : ERow) : DRow :=
  ⟨r.created_at, r.calculated_eta, etaRelativeHr r.calculated_eta unload⟩

/-- Row comparison used for sort_values on created_at; rows that reach
the sort all have a non-null created_at. -/
def rowLe (a b : DRow) : Bool := decide (a.created_at.getD 0 ≤ b.created_at.getD 0)

/-- eta_chart.py lines 132 and 157: derive eta_relative_hr for every
row, drop the rows where created_at or eta_relative_hr is null, and
sort ascending by created_at. -/
def etaTimelineRows (rows : List ERow) (unload : Option Rat) : List DRow :=
  ((rows.map (addDerived unload)).filter
    (fun r => r.created_at.isSome && r.eta_relative_hr.isSome)).mergeSort rowLe

/-- A cell of the transport-id column: a string or an integer; pyStr is
the str() view pandas astype(str) produces on it. -/
inductive Cell where
  | s : String → Cell
  | i : Int → Cell
deriving DecidableEq

/-- Modelled from the Python standard library: str() on a cell value. -/
def pyStr : Cell → String
  | .s v => v
  | .i n => toString n

/-- One raw event row: the transport-id cell plus the remaining payload,
kept abstract. -/
structure RawEv where
  tid : Cell
  payload : String
deriving DecidableEq

/-- events.py line 38: does a row belong to the selected transport?
Both sides are stringified and compared exactly. -/
def matchesTransport (sel : Cell) (r : RawEv) : Bool := pyStr r.tid == pyStr sel

/-- events.py line 38: the row filter. -/
def filterTransport (rows : List RawEv) (sel : Cell) : List RawEv :=
  rows.filter (matchesTransport sel)

/-- events.py lines 38-40: filter, and return the empty frame when
nothing matched (not an error). -/
def loadForTransport (rows : List RawEv) (sel : Cell) : List RawEv :=
  let f := filterTransport rows sel
  if f.isEmpty then [] else f

/-- A cell of a timestamp column: a raw string, an already parsed
UTC instant (rational seconds since the epoch), or null (NaN / NaT). -/
inductive PVal where
  | str : String → PVal
  | ts : Rat → PVal
  | nullv : PVal
deriving DecidableEq

/-- A data frame as a named-column store. -/
abbrev Frame := List (String × List PVal)

/-- Column-presence test (the Python "name in frame.columns"). -/
def hasCol (f : Frame) (n : String) : Bool := (f.map Prod.fst).contains n

/-- events.py lines 4-8: _pick_first_existing_column. -/
def pickFirstExisting (f : Frame) (cands : List String) : Option String :=
  cands.find? (hasCol f)

/-- Value of a decimal digit character. -/
def digitVal (c : Char) : Option Nat :=
  if '0' ≤ c ∧ c ≤ '9' then some (c.toNat - 48) else none

/-- Two decimal digits. -/
def digits2 (a b : Char) : Option Nat :=
  match digitVal a, digitVal b with
  | some x, some y => some (10 * x + y)
  | _, _ => none

/-- Four decimal digits. -/
def digits4 (a b c d : Char) : Option Nat :=
  match digitVal a, digitVal b, digitVal c, digitVal d with
  | some w, some x, some y, some z => some (1000 * w + 100 * x + 10 * y + z)
  | _, _, _, _ => none

/-- Days between the given civil date and 1970-01-01 (proleptic
Gregorian calendar, the standard era-based computation). -/
def daysFromCivil (y m d : Int) : Int :=
  let y2 := if m ≤ 2 then y - 1 else y
  let era := (if 0 ≤ y2 then y2 else y2 - 399) / 400
  let yoe := y2 - era * 400
  let mp := (m + 9) % 12
  let doy := (153 * mp + 2) / 5 + (d - 1)
  let doe := yoe * 365 + yoe / 4 - yoe / 100 + doy
  era * 146097 + doe - 719468

/-- Number of days of the given month in the proleptic Gregorian
calendar, with the leap-year rule. -/
def daysInMonth (y m : Nat) : Nat :=
  if m = 2 then
    if (y % 4 = 0 ∧ y % 100 ≠ 0) ∨ y % 400 = 0 then 29 else 28
  else if m = 4 ∨ m = 6 ∨ m = 9 ∨ m = 11 then 30
  else 31

/-- Modelled from the Python library pandas: to_datetime with
errors coerce and utc True, as called in events.py and eta_chart.py,
restricted to the canonical ISO-8601 UTC form
YYYY-MM-DDTHH:MM:SSZ; every other string, and any impossible civil
date, is unparseable. -/
def parseIsoZ (s : String) : Option Rat :=
  match s.data with
  | [y1, y2, y3, y4, '-', m1, m2, '-', d1, d2, 'T', h1, h2, ':', n1, n2, ':', s1, s2, 'Z'] =>
    match digits4 y1 y2 y3 y4, digits2 m1 m2, digits2 d1 d2,
        digits2 h1 h2, digits2 n1 n2, digits2 s1 s2 with
    | some y, some mo, some d, some h, some mi, some se =>
      if 1 ≤ mo ∧ mo ≤ 12 ∧ 1 ≤ d ∧ d ≤ daysInMonth y mo ∧ h ≤ 23 ∧ mi ≤ 59 ∧ se ≤ 59 then
        some (((daysFromCivil (y : Int) (mo : Int) (d : Int)) * 86400
          + (h : Int) * 3600 + (mi : Int) * 60 + (se : Int) : Int) : Rat)
      else none
    | _, _, _, _, _, _ => none
  | _ => none

/-- Coerce one cell to a datetime: an already parsed instant stays, a
parseable string becomes an instant, anything else becomes null.  This
is the per-cell action of to_datetime with errors coerce. -/
def toDatetimeCell (v : PVal) : PVal :=
  match v with
  | .ts t => .ts t
  | .str s =>
    match parseIsoZ s with
    | some t => .ts t
    | none => .nullv
  | .nullv => .nullv

/-- events.py lines 53-56: coerce the named columns (when present under
exactly those names) to datetimes. -/
def parseTimestampCols (names : List String) (f : Frame) : Frame :=
  f.map (fun c => if names.contains c.1 then (c.1, c.2.map toDatetimeCell) else c)

/-- events.py lines 43-51: the rename map of the ETA loader, built
before any coercion runs. -/
def etaRenameMap (f : Frame) : List (String × String) :=
  (if hasCol f "created_at" then []
   else
     match pickFirstExisting f ["CREATED_AT"] with
     | some a => [(a, "created_at")]
     | none => []) ++
  (if hasCol f "calculated_eta" then []
   else
     match pickFirstExisting f ["CALCULATED_ETA"] with
     | some a => [(a, "calculated_eta")]
     | none => [])

/-- pandas rename: replace every column name that the map mentions. -/
def renameCols (m : List (String × String)) (f : Frame) : Frame :=
  f.map (fun c => (((m.find? (fun p => p.1 == c.1)).map Prod.snd).getD c.1, c.2))

/-- events.py lines 42-59 in their actual order: build the rename map,
run the datetime coercion on the canonical lower-case names, and only
then apply the rename. -/
def etaNormalizeCols (f : Frame) : Frame :=
  renameCols (etaRenameMap f) (parseTimestampCols ["created_at", "calculated_eta"] f)

/-- events.py lines 100-118: the rename map of the telematics loader. -/
def telemRenameMap (f : Frame) : List (String × String) :=
  (if hasCol f "created_at" then []
   else
     match pickFirstExisting f ["CREATEDAT", "CREATED_AT"] with
     | some a => [(a, "created_at")]
     | none => []) ++
  (if hasCol f "type" then []
   else
     match pickFirstExisting f ["TYPE"] with
     | some a => [(a, "type")]
     | none => []) ++
  (if hasCol f "position_coordinates" then []
   else
     match pickFirstExisting f ["POSITIONCOORDINATES", "POSITION_COORDINATES"] with
     | some a => [(a, "position_coordinates")]
     | none => [])

/-- events.py lines 100-125 in their actual order: apply the rename
first and coerce created_at afterwards. -/
def telemNormalizeCols (f : Frame) : Frame :=
  parseTimestampCols ["created_at"] (renameCols (telemRenameMap f) f)

/-! Helper lemmas shared by several claims. -/

theorem fle_qc_mono_left {a b : Int} (hab : a ≤ b) {x : F}
    (h : fle (qc b) x = true) : fle (qc a) x = true := by
  cases x with
  | nan => simp [fle, qc] at h
  | inf s => cases s <;> simp_all [fle, qc]
  | fin m e =>
    simp only [fle, qc] at h ⊢
    split at h <;> rename_i hc <;> simp only [hc, if_true, if_false, decide_eq_true_eq] at h ⊢
    · exact le_trans hab h
    · exact le_trans (mul_le_mul_of_nonneg_right hab (by positivity)) h

theorem fle_qc_mono_right {a b : Int} (hab : a ≤ b) {x : F}
    (h : fle x (qc a) = true) : fle x (qc b) = true := by
  cases x with
  | nan => simp [fle, qc] at h
  | inf s => cases s <;> simp_all [fle, qc]
  | fin m e =>
    simp only [fle, qc] at h ⊢
    split at h <;> rename_i hc <;> simp only [hc, if_true, if_false, decide_eq_true_eq] at h ⊢
    · exact le_trans h (mul_le_mul_of_nonneg_right hab (by positivity))
    · exact le_trans h hab

theorem inEuropeF_global {x y : F} (h : inEuropeF x y = true) : inGlobalF x y = true := by
  simp only [inEuropeF, Bool.and_eq_true] at h
  obtain ⟨⟨⟨h1, h2⟩, h3⟩, h4⟩ := h
  simp only [inGlobalF, Bool.and_eq_true]
  exact ⟨⟨⟨fle_qc_mono_left (by norm_num) h1, fle_qc_mono_right (by norm_num) h2⟩,
    fle_qc_mono_left (by norm_num) h3⟩, fle_qc_mono_right (by norm_num) h4⟩

theorem pickLonLat_sound {x y : F} {p : F × F} (h : pickLonLat x y = some p) :
    (p = (x, y) ∨ p = (y, x)) ∧ inGlobalF p.1 p.2 = true := by
  cases hog : inGlobalF x y <;> cases hsw : inGlobalF y x <;>
    cases he1 : inEuropeF x y <;> cases he2 : inEuropeF y x <;>
      simp [pickLonLat, hog, hsw, he1, he2] at h <;>
        subst h <;> simp [hog, hsw]

theorem pickLonLat_europe {x y : F} (h : inEuropeF x y = true) :
    pickLonLat x y = some (x, y) := by
  simp [pickLonLat, inEuropeF_global h, h]

theorem dropMarker_le_head {b : List Nat} (h : b.headD 0 = 1) : dropMarker b = b := by
  cases b with
  | nil => rfl
  | cons a t =>
    simp only [List.headD_cons] at h
    subst h
    rw [dropMarker, if_neg]
    rintro ⟨-, htake, -⟩
    cases t <;> simp at htake

theorem dropMarker_zeros {b : List Nat} (h5 : 5 ≤ b.length) (h : b.headD 0 = 1) :
    dropMarker (0 :: 0 :: 0 :: 0 :: b) = b := by
  cases b with
  | nil => simp at h5
  | cons a t =>
    simp only [List.headD_cons] at h
    subst h
    rw [dropMarker, if_pos]
    · rfl
    · exact ⟨by simpa using h5, rfl, Or.inr (by simp)⟩

theorem readPoint_le_point (px py : List Nat) (hx : px.length = 8) (hy : py.length = 8) :
    readPoint (1 :: 1 :: 0 :: 0 :: 0 :: (px ++ py)) =
      pickLonLat (decodeF64 (leNat px)) (decodeF64 (leNat py)) := by
  have hlen : (1 :: 1 :: 0 :: 0 :: 0 :: (px ++ py)).length = 21 := by
    simp [hx, hy]
  have hx8 : ((1 :: 1 :: 0 :: 0 :: 0 :: (px ++ py)).drop 5).take 8 = px := by
    simpa using @List.take_left' _ px py 8 hx
  have hy8 : ((1 :: 1 :: 0 :: 0 :: 0 :: (px ++ py)).drop 13).take 8 = py := by
    have : (px ++ py).drop 8 = py := List.drop_left' hx
    simp only [List.drop, this]
    exact hy ▸ List.take_length py
  rw [readPoint, if_neg (by omega), if_neg (by simp), if_neg (by simp [gtypeOf, byteWord, leNat])]
  rw [rawX, rawY]
  simp only [List.headD_cons, beq_self_eq_true, byteWord, if_pos]
  rw [hx8, hy8]

theorem readPoint_short {b : List Nat} (h : b.length < 21) : readPoint b = none := by
  rw [readPoint, if_pos h]

/-- C1 counterexample: the pair (lon = 13, lat = 52) lies inside the
continental bounding box and the 21-byte big-endian WKB point encoding
it (flag byte 0, geometry-type code 1, payload doubles 13.0 then 52.0)
is well formed, yet decoding returns undecodable: the all-zero-marker
strip consumes the flag byte together with the three leading zero bytes
of the big-endian type word, leaving only 17 bytes. -/
theorem wkb_bigendian_roundtrip_cex :
    decodeF64 (beNat [64, 42, 0, 0, 0, 0, 0, 0]) = F.fin (13 * 2 ^ 49) (-49) ∧
    decodeF64 (beNat [64, 74, 0, 0, 0, 0, 0, 0]) = F.fin (13 * 2 ^ 49) (-47) ∧
    inEuropeF (F.fin (13 * 2 ^ 49) (-49)) (F.fin (13 * 2 ^ 49) (-47)) = true ∧
    wkbPointToLonLat (.bytesIn
      (0 :: 0 :: 0 :: 0 :: 1 :: ([64, 42, 0, 0, 0, 0, 0, 0] ++ [64, 74, 0, 0, 0, 0, 0, 0]))) =
      none := by
  decide

/-- C1 (amended): decoding a well-formed little-endian (flag byte 1)
WKB point encoding whose payload pair lies inside the continental
bounding box succeeds and returns exactly that pair; a 21-byte
big-endian (flag byte 0) type-1 point encoding never decodes, because
the all-zero-marker strip consumes its first four bytes. -/
theorem wkb_roundtrip_little_endian (px py : List Nat)
    (hx : px.length = 8) (hy : py.length = 8)
    (hbox : inEuropeF (decodeF64 (leNat px)) (decodeF64 (leNat py)) = true) :
    wkbPointToLonLat (.bytesIn (1 :: 1 :: 0 :: 0 :: 0 :: (px ++ py))) =
      some (decodeF64 (leNat px), decodeF64 (leNat py)) ∧
    wkbPointToLonLat (.bytesIn (0 :: 0 :: 0 :: 0 :: 1 :: (px ++ py))) = none := by
  constructor
  · show readPoint (dropMarker (1 :: 1 :: 0 :: 0 :: 0 :: (px ++ py))) = _
    rw [dropMarker_le_head (by simp), readPoint_le_point px py hx hy,
      pickLonLat_europe hbox]
  · show readPoint (dropMarker (0 :: 0 :: 0 :: 0 :: 1 :: (px ++ py))) = _
    rw [dropMarker_zeros (by simp [hx]; omega) (by simp)]
    exact readPoint_short (by simp [hx, hy])

theorem wkb_roundtrip_little_endian_witness :
    ([0, 0, 0, 0, 0, 0, 42, 64] : List Nat).length = 8 ∧
    ([0, 0, 0, 0, 0, 0, 74, 64] : List Nat).length = 8 ∧
    inEuropeF (decodeF64 (leNat [0, 0, 0, 0, 0, 0, 42, 64]))
      (decodeF64 (leNat [0, 0, 0, 0, 0, 0, 74, 64])) = true ∧
    (wkbPointToLonLat (.bytesIn (1 :: 1 :: 0 :: 0 :: 0 ::
        ([0, 0, 0, 0, 0, 0, 42, 64] ++ [0, 0, 0, 0, 0, 0, 74, 64]))) =
      some (decodeF64 (leNat [0, 0, 0, 0, 0, 0, 42, 64]),
        decodeF64 (leNat [0, 0, 0, 0, 0, 0, 74, 64])) ∧
     wkbPointToLonLat (.bytesIn (0 :: 0 :: 0 :: 0 :: 1 ::
        ([0, 0, 0, 0, 0, 0, 42, 64] ++ [0, 0, 0, 0, 0, 0, 74, 64]))) = none) :=
  ⟨by decide, by decide, by decide,
    wkb_roundtrip_little_endian _ _ (by decide) (by decide) (by decide)⟩

/-- C2: the decoder applies exactly the axis-disambiguation preference
order the specification states: the code's orientation choice agrees
with the spec's order on every pair of decoded doubles, every
structurally valid little-endian point is decided by that choice on its
two payload doubles, and the payload with raw x = 52.0, y = 13.0
decodes to (lon = 13.0, lat = 52.0). -/
theorem wkb_axis_preference :
    (∀ x y : F, pickLonLat x y = axisPreferenceSpec x y) ∧
    (∀ px py : List Nat, px.length = 8 → py.length = 8 →
      readPoint (1 :: 1 :: 0 :: 0 :: 0 :: (px ++ py)) =
        pickLonLat (decodeF64 (leNat px)) (decodeF64 (leNat py))) ∧
    wkbPointToLonLat (.bytesIn (1 :: 1 :: 0 :: 0 :: 0 ::
        ([0, 0, 0, 0, 0, 0, 74, 64] ++ [0, 0, 0, 0, 0, 0, 42, 64]))) =
      some (F.fin (13 * 2 ^ 49) (-49), F.fin (13 * 2 ^ 49) (-47)) :=
  ⟨fun _ _ => rfl, readPoint_le_point, by decide⟩

theorem wkb_axis_preference_witness :
    ([0, 0, 0, 0, 0, 0, 74, 64] : List Nat).length = 8 ∧
    ([0, 0, 0, 0, 0, 0, 42, 64] : List Nat).length = 8 ∧
    readPoint (1 :: 1 :: 0 :: 0 :: 0 ::
        (([0, 0, 0, 0, 0, 0, 74, 64] : List Nat) ++ [0, 0, 0, 0, 0, 0, 42, 64])) =
      pickLonLat (decodeF64 (leNat [0, 0, 0, 0, 0, 0, 74, 64]))
        (decodeF64 (leNat [0, 0, 0, 0, 0, 0, 42, 64])) :=
  ⟨by decide, by decide, wkb_axis_preference.2.1 _ _ (by decide) (by decide)⟩

/-- C9: prepending the 4-byte all-zero marker to any byte sequence whose
first byte is the little-endian flag 1 does not change the decoding
result. -/
theorem wkb_marker_invariance (b : List Nat) (h : b.headD 0 = 1) :
    wkbPointToLonLat (.bytesIn (0 :: 0 :: 0 :: 0 :: b)) =
      wkbPointToLonLat (.bytesIn b) := by
  show readPoint (dropMarker (0 :: 0 :: 0 :: 0 :: b)) = readPoint (dropMarker b)
  rw [dropMarker_le_head h]
  by_cases h5 : 5 ≤ b.length
  · rw [dropMarker_zeros h5 h]
  · have hm : dropMarker (0 :: 0 :: 0 :: 0 :: b) = 0 :: 0 :: 0 :: 0 :: b := by
      rw [dropMarker, if_neg]
      rintro ⟨h9, -, -⟩
      simp only [List.length_cons] at h9
      omega
    rw [hm, readPoint_short (by simp; omega), readPoint_short (by omega)]

theorem wkb_marker_invariance_witness :
    (1 :: 1 :: 0 :: 0 :: 0 ::
        (([0, 0, 0, 0, 0, 0, 42, 64] : List Nat) ++ [0, 0, 0, 0, 0, 0, 74, 64])).headD 0 = 1 ∧
    wkbPointToLonLat (.bytesIn (0 :: 0 :: 0 :: 0 :: 1 :: 1 :: 0 :: 0 :: 0 ::
        (([0, 0, 0, 0, 0, 0, 42, 64] : List Nat) ++ [0, 0, 0, 0, 0, 0, 74, 64]))) =
      wkbPointToLonLat (.bytesIn (1 :: 1 :: 0 :: 0 :: 0 ::
        (([0, 0, 0, 0, 0, 0, 42, 64] : List Nat) ++ [0, 0, 0, 0, 0, 0, 74, 64]))) :=
  ⟨by decide, wkb_marker_invariance _ (by decide)⟩

/-- C10: whenever decoding succeeds, the returned pair is one of the two
orientations of the two payload doubles read at offset 5 of the
marker-stripped bytes, and it satisfies the global longitude and
latitude bounds; the decoder never fabricates or alters coordinate
values. -/
theorem wkb_decode_sound (i : WkbInput) (p : F × F)
    (h : wkbPointToLonLat i = some p) :
    ∃ b, toByteData i = some b ∧
      (p = (rawX (dropMarker b), rawY (dropMarker b)) ∨
       p = (rawY (dropMarker b), rawX (dropMarker b))) ∧
      inGlobalF p.1 p.2 = true := by
  cases hb : toByteData i with
  | none => simp [wkbPointToLonLat, hb] at h
  | some b =>
    simp only [wkbPointToLonLat, hb] at h
    refine ⟨b, rfl, ?_⟩
    unfold readPoint at h
    by_cases h1 : (dropMarker b).length < 21
    · rw [if_pos h1] at h
      exact absurd h (by simp)
    · rw [if_neg h1] at h
      by_cases h2 : (dropMarker b).headD 0 ≠ 0 ∧ (dropMarker b).headD 0 ≠ 1
      · rw [if_pos h2] at h
        exact absurd h (by simp)
      · rw [if_neg h2] at h
        by_cases h3 : gtypeOf (dropMarker b) ≠ 1
        · rw [if_pos h3] at h
          exact absurd h (by simp)
        · rw [if_neg h3] at h
          exact pickLonLat_sound h

theorem wkb_decode_sound_witness :
    wkbPointToLonLat (.bytesIn (1 :: 1 :: 0 :: 0 :: 0 ::
        ([0, 0, 0, 0, 0, 0, 42, 64] ++ [0, 0, 0, 0, 0, 0, 74, 64]))) =
      some (F.fin (13 * 2 ^ 49) (-49), F.fin (13 * 2 ^ 49) (-47)) ∧
    ∃ b, toByteData (.bytesIn (1 :: 1 :: 0 :: 0 :: 0 ::
        ([0, 0, 0, 0, 0, 0, 42, 64] ++ [0, 0, 0, 0, 0, 0, 74, 64]))) = some b ∧
      ((F.fin (13 * 2 ^ 49) (-49), F.fin (13 * 2 ^ 49) (-47)) =
          (rawX (dropMarker b), rawY (dropMarker b)) ∨
       (F.fin (13 * 2 ^ 49) (-49), F.fin (13 * 2 ^ 49) (-47)) =
          (rawY (dropMarker b), rawX (dropMarker b))) ∧
      inGlobalF (F.fin (13 * 2 ^ 49) (-49)) (F.fin (13 * 2 ^ 49) (-47)) = true :=
  ⟨by decide, wkb_decode_sound _ _ (by decide)⟩

/-- C3: version tagging follows the strict priority the specification
states: the code's tag agrees with the spec's rule on every record; a
record whose explicit VERSION cell holds V3_MODEL tags v3, a record
without that cell whose source is predictor-v2 tags v2, and a record
with neither tags unknown. -/
theorem eta_version_tagging :
    (∀ r : EtaRec, deriveVersion r = versionTagSpec r) ∧
    deriveVersion ⟨some "V3_MODEL", none⟩ = "v3" ∧
    deriveVersion ⟨none, some "predictor-v2"⟩ = "v2" ∧
    deriveVersion ⟨none, none⟩ = "unknown" := by
  refine ⟨fun r => ?_, by decide, by decide, by decide⟩
  cases r with
  | mk V s => cases V <;> rfl

/-- C5: the derived eta_relative_hr is the signed difference of the
calculated eta and the reference unload time expressed in hours; a null
on either side yields null and such a record never reaches the output;
for calculated eta 2024-01-01T10:00:00Z and unload time
2024-01-01T08:00:00Z the value is 2. -/
theorem eta_relative_hours :
    (∀ e u : Rat, etaRelativeHr (some e) (some u) = some ((e - u) / 3600)) ∧
    (∀ e : Option Rat, etaRelativeHr e none = none) ∧
    (∀ u : Rat, etaRelativeHr none (some u) = none) ∧
    (∀ (rows : List ERow) (unload : Option Rat) (r : ERow),
      etaRelativeHr r.calculated_eta unload = none →
      addDerived unload r ∉ etaTimelineRows rows unload) ∧
    etaRelativeHr (parseIsoZ "2024-01-01T10:00:00Z") (parseIsoZ "2024-01-01T08:00:00Z") =
      some 2 := by
  refine ⟨fun e u => rfl, ?_, fun u => rfl, ?_, ?_⟩
  · intro e
    cases e <;> rfl
  · intro rows unload r hnone hmem
    rw [etaTimelineRows, List.mem_mergeSort] at hmem
    have hp := List.of_mem_filter hmem
    simp [addDerived, hnone] at hp
  · have h1 : parseIsoZ "2024-01-01T10:00:00Z" = some (1704103200 : Rat) := by decide
    have h2 : parseIsoZ "2024-01-01T08:00:00Z" = some (1704096000 : Rat) := by decide
    rw [h1, h2]
    show some ((1704103200 - 1704096000 : Rat) / 3600) = some 2
    norm_num

theorem eta_relative_hours_witness :
    etaRelativeHr (ERow.mk (some 0) none).calculated_eta (some 0) = none ∧
    addDerived (some 0) (ERow.mk (some 0) none) ∉
      etaTimelineRows [ERow.mk (some 0) none] (some 0) :=
  ⟨rfl, eta_relative_hours.2.2.2.1 _ _ _ rfl⟩

/-- C6: every record of the derived output has a non-null created_at and
a non-null eta_relative_hr (records lacking either are dropped), and the
output is sorted ascending by created_at. -/
theorem eta_timeline_clean_sorted (rows : List ERow) (unload : Option Rat) :
    (∀ r ∈ etaTimelineRows rows unload,
      r.created_at.isSome = true ∧ r.eta_relative_hr.isSome = true) ∧
    (etaTimelineRows rows unload).Pairwise (fun a b => rowLe a b = true) := by
  constructor
  · intro r hr
    rw [etaTimelineRows, List.mem_mergeSort] at hr
    have hp := List.of_mem_filter hr
    simpa [Bool.and_eq_true] using hp
  · exact List.sorted_mergeSort
      (fun a b c hab hbc => by
        simp only [rowLe, decide_eq_true_eq] at *
        exact le_trans hab hbc)
      (fun a b => by
        simp only [rowLe, Bool.or_eq_true, decide_eq_true_eq]
        exact le_total _ _) _

theorem eta_timeline_clean_sorted_witness :
    (∀ r ∈ etaTimelineRows [ERow.mk (some 1) (some 2)] (some 0),
      r.created_at.isSome = true ∧ r.eta_relative_hr.isSome = true) ∧
    (etaTimelineRows [ERow.mk (some 1) (some 2)] (some 0)).Pairwise
      (fun a b => rowLe a b = true) :=
  eta_timeline_clean_sorted _ _

theorem loadForTransport_eq_filter (rows : List RawEv) (sel : Cell) :
    loadForTransport rows sel = filterTransport rows sel := by
  rw [loadForTransport]
  by_cases hemp : (filterTransport rows sel).isEmpty
  · rw [if_pos hemp]
    rw [List.isEmpty_iff] at hemp
    exact hemp.symm
  · rw [if_neg hemp]

/-- C8: the transport filter returns precisely the rows whose
stringified transport-id cell equals the stringified target (exact and
case sensitive); an empty match set yields the empty frame, not an
error; an integer id 123 matches the string target 123, and an
upper-case id does not match a lower-case target. -/
theorem transport_filter_exact :
    (∀ (rows : List RawEv) (sel : Cell) (r : RawEv),
      r ∈ loadForTransport rows sel ↔ r ∈ rows ∧ pyStr r.tid = pyStr sel) ∧
    (∀ (rows : List RawEv) (sel : Cell),
      (∀ r ∈ rows, pyStr r.tid ≠ pyStr sel) → loadForTransport rows sel = []) ∧
    loadForTransport [⟨Cell.i 123, "p"⟩] (Cell.s "123") = [⟨Cell.i 123, "p"⟩] ∧
    loadForTransport [⟨Cell.s "ABC", "p"⟩] (Cell.s "abc") = [] := by
  refine ⟨?_, ?_, by decide, by decide⟩
  · intro rows sel r
    rw [loadForTransport_eq_filter]
    simp [filterTransport, List.mem_filter, matchesTransport]
  · intro rows sel hall
    rw [loadForTransport_eq_filter, filterTransport, List.filter_eq_nil_iff]
    intro a ha
    simp only [matchesTransport, beq_iff_eq]
    exact hall a ha

theorem transport_filter_exact_witness :
    (∀ r ∈ ([⟨Cell.s "9", "x"⟩] : List RawEv), pyStr r.tid ≠ pyStr (Cell.s "123")) ∧
    loadForTransport [⟨Cell.s "9", "x"⟩] (Cell.s "123") = [] :=
  ⟨by decide, transport_filter_exact.2.1 _ _ (by decide)⟩

/-- C4 (code bug evidence): the ETA loader builds its rename map and
then runs the datetime coercion before applying the rename, so a frame
whose timestamps arrive under the upper-case spelling CREATED_AT is
renamed to created_at but keeps the raw, unparsed string, while the
lower-case spelling is parsed (and an unparseable value becomes null
rather than failing); the telematics loader renames first and then
parses, so the same upper-case input comes out parsed there. -/
theorem eta_loader_rename_skips_parsing :
    parseIsoZ "2024-01-01T10:00:00Z" = some 1704103200 ∧
    etaNormalizeCols [("CREATED_AT", [PVal.str "2024-01-01T10:00:00Z"])] =
      [("created_at", [PVal.str "2024-01-01T10:00:00Z"])] ∧
    etaNormalizeCols [("created_at", [PVal.str "2024-01-01T10:00:00Z"])] =
      [("created_at", [PVal.ts 1704103200])] ∧
    etaNormalizeCols [("created_at", [PVal.str "not a timestamp"])] =
      [("created_at", [PVal.nullv])] ∧
    telemNormalizeCols [("CREATED_AT", [PVal.str "2024-01-01T10:00:00Z"])] =
      [("created_at", [PVal.ts 1704103200])] :=
  ⟨by decide, by decide, by decide, by decide, by decide⟩

end EtaAnalysis
